import Mathlib

/-!
Verification of the SAPI CoAP sensor framework (`sapiprivate.h` of the
AMI_RTU_RS232 repository): sensor registry, URI dispatch, CBOR response
envelope, and the Observe notification lifecycle.

The repository ships only the private header `sapiprivate.h` (declarations,
compile-time constants, and the `sensor_reg_info_t` struct); the function
bodies (`crsapi`, `crresourcehandler`, `build_rsp_msg`,
`sapi_observation_handler`, `crarduino`, the registration table code) live in
a compilation unit that is not part of the repository snapshot.  Constants and
the registration-entry layout below are taken directly from the header; the
operations are modelled from the specification, as marked on each definition.
-/

namespace Sapi

/-- Source: `sapiprivate.h` line 142, `#define SAPI_MAX_PAYLOAD_LEN 256`. -/
def SAPI_MAX_PAYLOAD_LEN : Nat := 256

/-- Source: `sapiprivate.h` line 143, `#define SAPI_MAX_DEVICE_TYPE_LEN 20`. -/
def SAPI_MAX_DEVICE_TYPE_LEN : Nat := 20

/-- Source: `sapiprivate.h` line 146, `#define SAPI_MAX_DEVICES 4`. -/
def SAPI_MAX_DEVICES : Nat := 4

/-- Source: `sapiprivate.h` line 149, `#define COAP_MSG_MAX_AGE_IN_SECS 90`. -/
def COAP_MSG_MAX_AGE_IN_SECS : Nat := 90

/-- Source: `sapiprivate.h` line 230, `#define HDLC_MAX_PAYLOAD_LEN (255)`. -/
def HDLC_MAX_PAYLOAD_LEN : Nat := 255

/-- Modelled from the spec: the error taxonomy of section 7 (the repository
snapshot is missing `sapi_error.h` and the implementation files). -/
inductive SapiError where
  | CapacityError
  | DuplicateError
  | NotFound
  | PayloadTooLarge
  deriving DecidableEq

/-- CBOR head byte(s) for a data item of the given major type and length
argument.  Modelled from the spec: the low-level CBOR encoder (`cbor.h`) is an
external collaborator whose file is missing from the snapshot; this follows
the standard CBOR length encoding for lengths below 65536, which covers every
length the framework can produce (payloads are bounded by
`SAPI_MAX_PAYLOAD_LEN`). -/
def cborHead (major : Nat) (len : Nat) : List Nat :=
  if len < 24 then [major * 32 + len]
  else if len < 256 then [major * 32 + 24, len]
  else [major * 32 + 25, len / 256, len % 256]

/-- Modelled from the spec: the byte sequence built by `build_rsp_msg` /
`cbor_enc_nic_type` (bodies missing from the snapshot) — the two-field ordered
CBOR map `\x7b0: device_type, 1: payload\x7d`: map head `0xA2`, key `0`, the
device type as a text string, key `1`, the payload as a byte string. -/
def encodeEnvelope (t p : List Nat) : List Nat :=
  162 :: 0 :: (cborHead 3 t.length ++ (t ++ (1 :: (cborHead 2 p.length ++ p))))

/-- The encoding overhead of the envelope: every byte that is neither a label
byte nor a payload byte (map head, the two keys, the two string heads). -/
def envelopeOverhead (t p : List Nat) : Nat :=
  3 + (cborHead 3 t.length).length + (cborHead 2 p.length).length

/-- Modelled from the spec: `encode(device_type, payload, max_len) -> bytes |
PayloadTooLarge` (section 4.2).  Fails, writing no output, when the total
encoded size would exceed `max_len`. -/
def encode (t p : List Nat) (maxLen : Nat) : Option (List Nat) :=
  let out := encodeEnvelope t p
  if out.length ≤ maxLen then some out else none

/-- Read one CBOR head of the expected major type; return the length argument
and the remaining bytes.  (Decoder counterpart of `cborHead`, used to state
that envelopes decode back to their two fields.) -/
def readHead (major : Nat) (bs : List Nat) : Option (Nat × List Nat) :=
  match bs with
  | [] => none
  | b :: rest =>
    if b / 32 = major then
      if b % 32 < 24 then some (b % 32, rest)
      else if b % 32 = 24 then
        match rest with
        | n :: rest2 => some (n, rest2)
        | [] => none
      else if b % 32 = 25 then
        match rest with
        | hi :: lo :: rest2 => some (hi * 256 + lo, rest2)
        | _ => none
      else none
    else none

/-- Split off exactly `n` leading bytes, failing if fewer are available. -/
def takeExact (n : Nat) (bs : List Nat) : Option (List Nat × List Nat) :=
  if n ≤ bs.length then some (bs.take n, bs.drop n) else none

/-- Decode a two-field envelope back into its device-type and payload bytes. -/
def decodeEnvelope (bs : List Nat) : Option (List Nat × List Nat) :=
  match bs with
  | b0 :: b1 :: rest0 =>
    if b0 = 162 ∧ b1 = 0 then
      match readHead 3 rest0 with
      | some (l1, rest1) =>
        match takeExact l1 rest1 with
        | some (t, rest2) =>
          match rest2 with
          | b2 :: rest3 =>
            if b2 = 1 then
              match readHead 2 rest3 with
              | some (l2, rest4) =>
                match takeExact l2 rest4 with
                | some (p, rest5) => if rest5 = [] then some (t, p) else none
                | none => none
              | none => none
            else none
          | [] => none
        | none => none
      | none => none
    else none
  | _ => none

deriving instance DecidableEq for Except

/-- Sensor registration entry.  Layout from the source struct
`sensor_reg_info_t` (`sapiprivate.h` lines 156-166): `devicetype` is the
`char[SAPI_MAX_DEVICE_TYPE_LEN]` label, `frequency` the observation polling
frequency, `observer` the `uint8_t` flag (modelled as `Bool`, `1 -> observer`),
`observer_id` the observer id.  The driver callbacks (`init`, `read`,
`readcfg`, `writecfg`) are external function pointers; `readResult` models
what the `read` callback returns in the current sensor state: the payload
bytes on success, a driver error code on failure. -/
structure SensorEntry where
  devicetype : List Nat
  frequency : Nat
  observer : Bool
  observer_id : Nat
  readResult : Except Nat (List Nat)
  deriving DecidableEq

/-- Modelled from the spec: storage of a device-type label into the
`devicetype[SAPI_MAX_DEVICE_TYPE_LEN]` array of `sensor_reg_info_t`; a label
of length at most the array bound is stored intact. -/
def storeDevicetype (label : List Nat) : Option (List Nat) :=
  if label.length ≤ SAPI_MAX_DEVICE_TYPE_LEN then some label else none

/-- Modelled from the spec: `register(entry) -> SensorId | CapacityError |
DuplicateError` (section 4.1); the registration-table code
(`sapi_register_sensor`) is missing from the snapshot.  Returns the result and
the table after the call. -/
def registerSensor (table : List SensorEntry) (e : SensorEntry) :
    Except SapiError Nat × List SensorEntry :=
  if SAPI_MAX_DEVICES ≤ table.length then (Except.error SapiError.CapacityError, table)
  else if table.any (fun x => decide (x.devicetype = e.devicetype)) then
    (Except.error SapiError.DuplicateError, table)
  else (Except.ok table.length, table ++ [e])

/-- Linear first-match scan of the table, carrying the index of the head. -/
def lookupAux (table : List SensorEntry) (leaf : List Nat) (idx : Nat) :
    Except SapiError Nat :=
  match table with
  | [] => Except.error SapiError.NotFound
  | x :: xs => if x.devicetype = leaf then Except.ok idx else lookupAux xs leaf (idx + 1)

/-- Modelled from the spec: `lookup_by_uri(leaf) -> SensorId | NotFound`
(section 4.1), a case-sensitive exact string match on `device_type` that never
probes beyond the first match. -/
def lookup_by_uri (table : List SensorEntry) (leaf : List Nat) : Except SapiError Nat :=
  lookupAux table leaf 0

/-- Errors of the response builder: a propagated driver error (carrying the
driver's error code unchanged) or the encoder's size refusal. -/
inductive BuildError where
  | sensorError (code : Nat)
  | payloadTooLarge
  deriving DecidableEq

/-- Modelled from the spec: `build(sensor) -> (bytes, length) | SensorError`
(section 4.3, `build_rsp_msg` body missing from the snapshot).  Consults the
`read` callback; on a driver error it propagates the error without calling the
encoder; on success it delegates to `encode` with
`max_len = SAPI_MAX_PAYLOAD_LEN`. -/
def build (e : SensorEntry) : Except BuildError (List Nat) :=
  match e.readResult with
  | Except.error c => Except.error (BuildError.sensorError c)
  | Except.ok p =>
    match encode e.devicetype p SAPI_MAX_PAYLOAD_LEN with
    | none => Except.error BuildError.payloadTooLarge
    | some bytes => Except.ok bytes

/-- A parsed CoAP request context: the URI leaf option and the method
(only GET is modelled; config and Observe handling are stated on the
dedicated definitions below). -/
structure CoapRequest where
  uriLeaf : List Nat
  deriving DecidableEq

/-- Outgoing CoAP response: code class/detail (`2.05`, `4.04`, `5.00`) and the
payload bytes written into the message buffer. -/
structure CoapResponse where
  codeClass : Nat
  codeDetail : Nat
  payload : List Nat
  deriving DecidableEq

/-- 2.05 Content carrying the given body. -/
def rsp205 (body : List Nat) : CoapResponse := ⟨2, 5, body, ⟩

/-- 4.04 Not Found. -/
def rsp404 : CoapResponse := ⟨4, 4, [], ⟩

/-- 5.00 Internal Server Error. -/
def rsp500 : CoapResponse := ⟨5, 0, [], ⟩

/-- Modelled from the spec: the GET branch of `crresourcehandler` (body
missing from the snapshot): the Response Builder's output is sent as 2.05; a
builder failure maps to 5.00. -/
def handleGet (e : SensorEntry) : CoapResponse :=
  match build e with
  | Except.ok body => rsp205 body
  | Except.error _ => rsp500

/-- Result of one dispatch: the response, the registry table after the call,
and whether the legacy dispatcher (`crarduino`) was invoked. -/
structure DispatchResult where
  rsp : CoapResponse
  table : List SensorEntry
  legacyInvoked : Bool
  deriving DecidableEq

/-- Modelled from the spec: the primary SAPI dispatcher `crsapi` (body missing
from the snapshot, section 4.4): resolve the URI leaf through the registry; on
success handle the request from the matched entry; on `NotFound` pass control
to the legacy dispatcher (`crarduino`, an opaque external handler with no
access to the registry) and return 4.04 only if it does not claim the
request. -/
def crsapi (table : List SensorEntry) (legacy : CoapRequest → Option CoapResponse)
    (req : CoapRequest) : DispatchResult :=
  match lookup_by_uri table req.uriLeaf with
  | Except.ok id =>
    match table[id]? with
    | some e => ⟨handleGet e, table, false⟩
    | none => ⟨rsp500, table, false⟩
  | Except.error _ =>
    match legacy req with
    | some r => ⟨r, table, true⟩
    | none => ⟨rsp404, table, true⟩

/-- Per-sensor observation bookkeeping: the registry entry, the Observe
sequence counter (the last value issued), and the history of issued sequence
values. -/
structure ObsSensor where
  entry : SensorEntry
  seqCounter : Nat
  issuedSeqs : List Nat
  deriving DecidableEq

/-- An emitted observation notification. -/
structure Notification where
  sensorIdx : Nat
  body : List Nat
  seq : Nat
  maxAge : Nat
  deriving DecidableEq

/-- State of the Observation Notifier: the sensor table with observation
bookkeeping, the queue of sensor indices with a pending (scheduled)
notification, and the list of notifications sent so far. -/
structure ObsState where
  sensors : List ObsSensor
  queue : List Nat
  sent : List Notification
  deriving DecidableEq

/-- The Observe flag of sensor `i`, when `i` is a valid index. -/
def obsFlag (s : ObsState) (i : Nat) : Option Bool :=
  match s.sensors[i]? with
  | some os => some os.entry.observer
  | none => none

/-- Modelled from the spec: registering a CoAP Observe relationship (section
4.4; `crresourcehandler` body missing from the snapshot): set
`is_observer = true`, allocate the observer id, and issue the next Observe
sequence value (monotonically increasing). -/
def registerObserve (s : ObsState) (i : Nat) : ObsState × Option Nat :=
  match s.sensors[i]? with
  | none => (s, none)
  | some os =>
    let os2 : ObsSensor :=
      { os with
        entry := { os.entry with observer := true, observer_id := i },
        seqCounter := os.seqCounter + 1,
        issuedSeqs := (os.seqCounter + 1) :: os.issuedSeqs }
    ({ s with sensors := s.sensors.set i os2 }, some (os.seqCounter + 1))

/-- Modelled from the spec: cancelling an Observe relationship (section 5):
`is_observer` is cleared and `observer_id` released. -/
def cancelObserve (s : ObsState) (i : Nat) : ObsState :=
  match s.sensors[i]? with
  | none => s
  | some os =>
    let os2 : ObsSensor :=
      { os with entry := { os.entry with observer := false, observer_id := 0 } }
    { s with sensors := s.sensors.set i os2 }

/-- Modelled from the spec: one notification attempt for sensor `i`
(`sapi_observation_handler`, body missing from the snapshot): the send checks
the current `is_observer` state before transmission; with an active observer
it runs the Response Builder and, on success, emits a notification carrying
the next sequence value and `Max-Age = COAP_MSG_MAX_AGE_IN_SECS`; with no
active observer, or on a builder error, it is a no-op. -/
def notifySensor (s : ObsState) (i : Nat) : ObsState :=
  match s.sensors[i]? with
  | none => s
  | some os =>
    if os.entry.observer then
      match build os.entry with
      | Except.error _ => s
      | Except.ok body =>
        let os2 : ObsSensor :=
          { os with
            seqCounter := os.seqCounter + 1,
            issuedSeqs := (os.seqCounter + 1) :: os.issuedSeqs }
        { s with
          sensors := s.sensors.set i os2,
          sent := ⟨i, body, os.seqCounter + 1, COAP_MSG_MAX_AGE_IN_SECS⟩ :: s.sent }
    else s

/-- Run a sequence of notification triggers (periodic timer firings and queued
pushes), each going through `notifySensor`. -/
def runTriggers (s : ObsState) (evs : List Nat) : ObsState :=
  evs.foldl notifySensor s

/-- The notifications sent so far for sensor `i`. -/
def notifsFor (i : Nat) (l : List Notification) : List Notification :=
  l.filter (fun n => decide (n.sensorIdx = i))

/-- Every notification in the list carries `Max-Age = COAP_MSG_MAX_AGE_IN_SECS`. -/
def sentMaxAgesOk (l : List Notification) : Bool :=
  l.all (fun n => decide (n.maxAge = COAP_MSG_MAX_AGE_IN_SECS))

/-- The bytes of the ASCII string `temp`, the device type of the end-to-end
scenario of the spec. -/
def tempLabel : List Nat := [116, 101, 109, 112]

/-- The bytes of the ASCII string `23.5`, the live reading of the end-to-end
scenario of the spec. -/
def tempPayload : List Nat := [50, 51, 46, 53]

/-- The registered `temp` sensor of the end-to-end scenario: frequency 60, no
observer, `read` returning the 4 bytes `23.5`. -/
def tempEntry : SensorEntry :=
  { devicetype := tempLabel, frequency := 60, observer := false, observer_id := 0,
    readResult := Except.ok tempPayload }

/-- A one-entry registry table holding the `temp` sensor. -/
def tempTable : List SensorEntry := [tempEntry]

/-- A GET request whose URI leaf is `temp`. -/
def tempReq : CoapRequest := { uriLeaf := tempLabel }

/-- A request whose URI leaf matches no registered sensor. -/
def unknownReq : CoapRequest := { uriLeaf := [63] }

/-- A legacy dispatcher that claims nothing. -/
def noLegacy : CoapRequest → Option CoapResponse := fun _ => none

/-- The response of the claiming legacy dispatcher below. -/
def legacyRsp : CoapResponse := rsp205 [42]

/-- A legacy dispatcher that claims every request. -/
def legacyClaim : CoapRequest → Option CoapResponse := fun _ => some legacyRsp

/-- A tiny sensor entry with a one-byte device-type label `n`, used to fill
concrete registry tables. -/
def smallEntry (n : Nat) : SensorEntry :=
  { devicetype := [n], frequency := 0, observer := false, observer_id := 0,
    readResult := Except.ok [] }

/-- A registry table already holding `SAPI_MAX_DEVICES = 4` entries. -/
def fullTable : List SensorEntry :=
  [smallEntry 1, smallEntry 2, smallEntry 3, smallEntry 4]

/-- The `temp` sensor with an active observer. -/
def obsEntry : SensorEntry :=
  { devicetype := tempLabel, frequency := 60, observer := true, observer_id := 0,
    readResult := Except.ok tempPayload }

/-- Observation bookkeeping for the observed `temp` sensor: last issued
sequence value 3, history of issued values. -/
def obsSensor0 : ObsSensor := ⟨obsEntry, 3, [3, 2, 1]⟩

/-- An Observation Notifier state with the observed `temp` sensor at index 0
and a notification for it already queued. -/
def obsState0 : ObsState := ⟨[obsSensor0], [0], []⟩

/-- A 251-byte payload: together with the label and the envelope overhead it
exceeds `SAPI_MAX_PAYLOAD_LEN`. -/
def bigPayload : List Nat := List.replicate 251 48

/-- A sensor whose `read` returns a payload too large to encode. -/
def bigEntry : SensorEntry :=
  { devicetype := tempLabel, frequency := 60, observer := false, observer_id := 0,
    readResult := Except.ok bigPayload }

/-- A sensor whose `read` callback fails with driver error code 7. -/
def errEntry : SensorEntry :=
  { devicetype := tempLabel, frequency := 60, observer := true, observer_id := 0,
    readResult := Except.error 7 }

/-- Observation bookkeeping for the failing sensor. -/
def errObsSensor : ObsSensor := ⟨errEntry, 3, [3, 2, 1]⟩

/-- An Observation Notifier state holding the failing sensor at index 0. -/
def errObsState : ObsState := ⟨[errObsSensor], [0], []⟩

/-- A 20-byte device-type label (the maximum the constants contract allows). -/
def label20 : List Nat := List.replicate 20 97

/-- A sensor entry registered under the 20-byte label. -/
def entry20 : SensorEntry :=
  { devicetype := label20, frequency := 0, observer := false, observer_id := 0,
    readResult := Except.ok tempPayload }

lemma readHead_cborHead (major len : Nat) (rest : List Nat) (h : len < 65536) :
    readHead major (cborHead major len ++ rest) = some (len, rest) := by
  unfold cborHead
  by_cases h1 : len < 24
  · have d1 : (major * 32 + len) / 32 = major := by omega
    have d2 : (major * 32 + len) % 32 = len := by omega
    simp [readHead, d1, d2, h1]
  · by_cases h2 : len < 256
    · have d1 : (major * 32 + 24) / 32 = major := by omega
      have d2 : (major * 32 + 24) % 32 = 24 := by omega
      simp [readHead, d1, d2, h1, h2]
    · have d1 : (major * 32 + 25) / 32 = major := by omega
      have d2 : (major * 32 + 25) % 32 = 25 := by omega
      have d3 : len / 256 * 256 + len % 256 = len := by omega
      simp [readHead, d1, d2, h1, h2, d3]

lemma takeExact_append (l r : List Nat) :
    takeExact l.length (l ++ r) = some (l, r) := by
  have hle : l.length ≤ (l ++ r).length := by
    simp [List.length_append]
  simp [takeExact, hle, List.take_left, List.drop_left]

/-- Every envelope the encoder emits decodes back to exactly its two input
fields, whenever the label head fits in one byte (labels are bounded by
`SAPI_MAX_DEVICE_TYPE_LEN = 20 < 24`) and the payload length is below 65536. -/
lemma decode_encodeEnvelope (t p : List Nat)
    (ht : t.length < 24) (hp : p.length < 65536) :
    decodeEnvelope (encodeEnvelope t p) = some (t, p) := by
  have ht' : t.length < 65536 := by omega
  unfold encodeEnvelope decodeEnvelope
  simp only [readHead_cborHead 3 t.length _ ht']
  simp only [takeExact_append]
  simp only [readHead_cborHead 2 p.length _ hp]
  have hp2 : takeExact p.length p = some (p, []) := by
    have := takeExact_append p []
    simpa using this
  simp [hp2]

/-- The length of the envelope is exactly the label length plus the payload
length plus the encoding overhead. -/
lemma length_encodeEnvelope (t p : List Nat) :
    (encodeEnvelope t p).length = t.length + p.length + envelopeOverhead t p := by
  simp [encodeEnvelope, envelopeOverhead]
  omega

/-- The dispatcher never changes the registry table, on any path. -/
lemma crsapi_table_unchanged (table : List SensorEntry)
    (legacy : CoapRequest → Option CoapResponse) (req : CoapRequest) :
    (crsapi table legacy req).table = table := by
  unfold crsapi
  cases lookup_by_uri table req.uriLeaf with
  | ok id =>
    cases h : table[id]? with
    | some e => simp [h]
    | none => simp [h]
  | error err =>
    cases h : legacy req with
    | some r => simp [h]
    | none => simp [h]

lemma obsFlag_notifySensor (s : ObsState) (j i : Nat) :
    obsFlag (notifySensor s j) i = obsFlag s i := by
  unfold notifySensor obsFlag
  cases hj : s.sensors[j]? with
  | none => rfl
  | some os =>
    by_cases hobs : os.entry.observer
    · cases hb : build os.entry with
      | error e => simp [hobs, hb]
      | ok body =>
        simp only [hobs, hb, if_true]
        have hlt : j < s.sensors.length := by
          by_contra hge
          rw [List.getElem?_eq_none (Nat.le_of_not_lt hge)] at hj
          exact Option.noConfusion hj
        rcases eq_or_ne j i with hij | hij
        · subst hij
          rw [List.getElem?_set_eq_of_lt _ hlt, hj]
        · rw [List.getElem?_set_ne hij]
    · simp [hobs]

lemma notifsFor_notifySensor (s : ObsState) (j i : Nat)
    (hoff : obsFlag s i = some false) :
    notifsFor i (notifySensor s j).sent = notifsFor i s.sent := by
  unfold notifySensor
  cases hj : s.sensors[j]? with
  | none => rfl
  | some os =>
    by_cases hobs : os.entry.observer
    · cases hb : build os.entry with
      | error e => simp [hobs, hb]
      | ok body =>
        simp only [hobs, hb, if_true]
        have hji : j ≠ i := by
          intro h
          subst h
          rw [obsFlag, hj] at hoff
          simp [hobs] at hoff
        simp [notifsFor, List.filter_cons, hji]
    · simp [hobs]

lemma notifsFor_runTriggers (evs : List Nat) (s : ObsState) (i : Nat)
    (hoff : obsFlag s i = some false) :
    notifsFor i (runTriggers s evs).sent = notifsFor i s.sent := by
  induction evs generalizing s with
  | nil => rfl
  | cons e evs ih =>
    have h1 : obsFlag (notifySensor s e) i = some false := by
      rw [obsFlag_notifySensor]
      exact hoff
    calc notifsFor i (runTriggers s (e :: evs)).sent
        = notifsFor i (runTriggers (notifySensor s e) evs).sent := rfl
      _ = notifsFor i (notifySensor s e).sent := ih _ h1
      _ = notifsFor i s.sent := notifsFor_notifySensor s e i hoff

lemma lookupAux_found (table : List SensorEntry) (i k : Nat) (e : SensorEntry)
    (hwf : table.Pairwise (fun a b => a.devicetype ≠ b.devicetype))
    (he : table[i]? = some e) :
    lookupAux table e.devicetype k = Except.ok (k + i) := by
  induction table generalizing i k with
  | nil => simp at he
  | cons x xs ih =>
    cases i with
    | zero =>
      simp at he
      subst he
      simp [lookupAux]
    | succ j =>
      simp at he
      have hmem : e ∈ xs := List.getElem?_mem he
      have hne : x.devicetype ≠ e.devicetype :=
        (List.pairwise_cons.mp hwf).1 e hmem
      rw [lookupAux, if_neg hne, ih j (k + 1) (List.pairwise_cons.mp hwf).2 he]
      congr 1
      omega

lemma lookupAux_notFound (table : List SensorEntry) (leaf : List Nat) (k : Nat)
    (h : ∀ x ∈ table, x.devicetype ≠ leaf) :
    lookupAux table leaf k = Except.error SapiError.NotFound := by
  induction table generalizing k with
  | nil => rfl
  | cons x xs ih =>
    rw [lookupAux, if_neg (h x (List.mem_cons_self x xs))]
    exact ih (k + 1) (fun y hy => h y (List.mem_cons_of_mem x hy))

/-- C2: registering a sensor when the table already holds `SAPI_MAX_DEVICES`
(4) entries fails with `CapacityError`, and registering an entry whose
`device_type` equals an already-registered `device_type` fails with
`DuplicateError`; in both failure cases the registry table is unchanged (the
returned table is exactly the table before the call, so both its entry count
and the contents of every entry are preserved). -/
theorem register_capacity_and_duplicate (table : List SensorEntry) (e : SensorEntry) :
    (SAPI_MAX_DEVICES ≤ table.length →
      registerSensor table e = (Except.error SapiError.CapacityError, table))
    ∧ (table.length < SAPI_MAX_DEVICES →
      table.any (fun x => decide (x.devicetype = e.devicetype)) = true →
      registerSensor table e = (Except.error SapiError.DuplicateError, table)) := by
  constructor
  · intro h
    simp [registerSensor, h]
  · intro h1 h2
    rw [registerSensor, if_neg (Nat.not_le.mpr h1), if_pos h2]

/-- C2 witness: a table of 4 entries rejects a fifth with `CapacityError`, a
table holding an entry labelled `[1]` rejects a second entry labelled `[1]`
with `DuplicateError`, and in both cases the table after the call is the table
before the call. -/
theorem register_capacity_and_duplicate_witness :
    registerSensor fullTable (smallEntry 5) =
      (Except.error SapiError.CapacityError, fullTable)
    ∧ registerSensor [smallEntry 1] (smallEntry 1) =
      (Except.error SapiError.DuplicateError, [smallEntry 1]) :=
  ⟨(register_capacity_and_duplicate fullTable (smallEntry 5)).1 (by decide),
   (register_capacity_and_duplicate [smallEntry 1] (smallEntry 1)).2
     (by decide) (by decide)⟩

/-- C3: URI-leaf lookup is a case-sensitive exact match on the `device_type`
byte string: on a table with pairwise-distinct device types (as registration
enforces), looking up the `device_type` of the entry at index `i` returns
`i`, and looking up any string differing from every registered `device_type`
returns `NotFound`. -/
theorem lookup_by_uri_exact_match (table : List SensorEntry) (s : List Nat)
    (i : Nat) (e : SensorEntry)
    (hwf : table.Pairwise (fun a b => a.devicetype ≠ b.devicetype)) :
    (table[i]? = some e → lookup_by_uri table e.devicetype = Except.ok i)
    ∧ ((∀ x ∈ table, x.devicetype ≠ s) →
      lookup_by_uri table s = Except.error SapiError.NotFound) := by
  constructor
  · intro he
    have h := lookupAux_found table i 0 e hwf he
    simpa [lookup_by_uri] using h
  · intro h
    exact lookupAux_notFound table s 0 h

/-- C3 witness: on the two-entry table `[[1], [2]]`, looking up `[2]` returns
id 1 and looking up the unregistered string `[9]` returns `NotFound`. -/
theorem lookup_by_uri_exact_match_witness :
    lookup_by_uri [smallEntry 1, smallEntry 2] (smallEntry 2).devicetype =
      Except.ok 1
    ∧ lookup_by_uri [smallEntry 1, smallEntry 2] [9] =
      Except.error SapiError.NotFound :=
  ⟨(lookup_by_uri_exact_match [smallEntry 1, smallEntry 2] [9] 1 (smallEntry 2)
      (by decide)).1 (by decide),
   (lookup_by_uri_exact_match [smallEntry 1, smallEntry 2] [9] 1 (smallEntry 2)
      (by decide)).2 (by decide)⟩

/-- C9: the compile-time constants equal the protocol contract exactly — max
payload length 256, max device-type label length 20, max registered sensors 4,
Observe Max-Age 90 seconds — and every device-type label of length up to 20
bytes fits in a registry entry and is stored and used intact as both the URI
leaf (a fresh registration under it is found again by `lookup_by_uri`) and the
envelope type tag (the envelope decodes back to exactly that label). -/
theorem constants_contract (label p : List Nat) (e : SensorEntry)
    (hlen : label.length ≤ SAPI_MAX_DEVICE_TYPE_LEN)
    (hp : p.length < 65536)
    (hdev : e.devicetype = label) :
    SAPI_MAX_PAYLOAD_LEN = 256
    ∧ SAPI_MAX_DEVICE_TYPE_LEN = 20
    ∧ SAPI_MAX_DEVICES = 4
    ∧ COAP_MSG_MAX_AGE_IN_SECS = 90
    ∧ storeDevicetype label = some label
    ∧ lookup_by_uri (registerSensor [] e).2 label = Except.ok 0
    ∧ decodeEnvelope (encodeEnvelope label p) = some (label, p) := by
  have ht24 : label.length < 24 := by
    have h20 : SAPI_MAX_DEVICE_TYPE_LEN = 20 := rfl
    omega
  refine ⟨rfl, rfl, rfl, rfl, ?_, ?_, decode_encodeEnvelope label p ht24 hp⟩
  · simp [storeDevicetype, hlen]
  · simp [registerSensor, SAPI_MAX_DEVICES, lookup_by_uri, lookupAux, hdev]

/-- C9 witness: the constants hold, and the 20-byte label `label20` is stored
intact, found again as a URI leaf after registration, and decoded intact out
of an envelope around the payload `23.5`. -/
theorem constants_contract_witness :
    SAPI_MAX_PAYLOAD_LEN = 256
    ∧ SAPI_MAX_DEVICE_TYPE_LEN = 20
    ∧ SAPI_MAX_DEVICES = 4
    ∧ COAP_MSG_MAX_AGE_IN_SECS = 90
    ∧ storeDevicetype label20 = some label20
    ∧ lookup_by_uri (registerSensor [] entry20).2 label20 = Except.ok 0
    ∧ decodeEnvelope (encodeEnvelope label20 tempPayload) =
      some (label20, tempPayload) :=
  constants_contract label20 tempPayload entry20 (by decide) (by decide) (by decide)

/-- C10: the maximum CoAP response payload length `SAPI_MAX_PAYLOAD_LEN`
(256) is strictly greater than the maximum HDLC serial-link frame payload
length `HDLC_MAX_PAYLOAD_LEN` (255), so an envelope built at the maximum
permitted size — which the encoder does accept — cannot fit in a single HDLC
frame to the radio module. -/
theorem payload_exceeds_hdlc_frame :
    HDLC_MAX_PAYLOAD_LEN < SAPI_MAX_PAYLOAD_LEN
    ∧ ¬ (SAPI_MAX_PAYLOAD_LEN ≤ HDLC_MAX_PAYLOAD_LEN)
    ∧ ∃ t p out, encode t p SAPI_MAX_PAYLOAD_LEN = some out
        ∧ HDLC_MAX_PAYLOAD_LEN < out.length := by
  have hlen : (encodeEnvelope [116] (List.replicate 249 48)).length = 256 := by
    rw [length_encodeEnvelope]
    unfold envelopeOverhead cborHead
    rw [List.length_replicate]
    norm_num
  refine ⟨by decide, by decide,
    [116], List.replicate 249 48, encodeEnvelope [116] (List.replicate 249 48), ?_, ?_⟩
  · unfold encode
    rw [if_pos (by rw [hlen]; decide)]
  · rw [hlen]
    decide

/-- C4: when the URI leaf does not resolve to a registered sensor, the primary
dispatcher passes control to the legacy dispatcher (it is invoked on every
unresolved request), returns 4.04 only if the legacy dispatcher does not claim
the request (a claimed request gets the legacy response instead), and the
legacy invocation leaves the registry table unchanged; conversely, when the
registry recognizes the URI leaf, the legacy dispatcher is never invoked. -/
theorem dispatch_legacy_fallback (table : List SensorEntry)
    (legacy : CoapRequest → Option CoapResponse) (req : CoapRequest)
    (r : CoapResponse) (i : Nat) :
    (lookup_by_uri table req.uriLeaf = Except.error SapiError.NotFound →
      (crsapi table legacy req).legacyInvoked = true
      ∧ (crsapi table legacy req).table = table
      ∧ (legacy req = none → (crsapi table legacy req).rsp = rsp404)
      ∧ (legacy req = some r → (crsapi table legacy req).rsp = r))
    ∧ (lookup_by_uri table req.uriLeaf = Except.ok i →
      (crsapi table legacy req).legacyInvoked = false) := by
  constructor
  · intro h
    cases hl : legacy req with
    | none =>
      refine ⟨?_, crsapi_table_unchanged table legacy req, fun _ => ?_, fun hr => ?_⟩
      · simp [crsapi, h, hl]
      · simp [crsapi, h, hl]
      · exact Option.noConfusion hr
    | some r2 =>
      refine ⟨?_, crsapi_table_unchanged table legacy req, fun hn => ?_, fun hr => ?_⟩
      · simp [crsapi, h, hl]
      · exact Option.noConfusion hn
      · injection hr with hr2
        subst hr2
        simp [crsapi, h, hl]
  · intro h
    cases he : table[i]? with
    | some e => simp [crsapi, h, he]
    | none => simp [crsapi, h, he]

/-- C4 witness: on the one-entry `temp` table, a request for an unknown leaf
invokes the legacy dispatcher, leaves the table unchanged, yields 4.04 when
the legacy dispatcher claims nothing and the legacy response when it claims
the request; a request for the registered leaf does not invoke it. -/
theorem dispatch_legacy_fallback_witness :
    (crsapi tempTable noLegacy unknownReq).legacyInvoked = true
    ∧ (crsapi tempTable noLegacy unknownReq).table = tempTable
    ∧ (crsapi tempTable noLegacy unknownReq).rsp = rsp404
    ∧ (crsapi tempTable legacyClaim unknownReq).rsp = legacyRsp
    ∧ (crsapi tempTable noLegacy tempReq).legacyInvoked = false := by
  have h1 := dispatch_legacy_fallback tempTable noLegacy unknownReq legacyRsp 0
  have h2 := dispatch_legacy_fallback tempTable legacyClaim unknownReq legacyRsp 0
  have h3 := dispatch_legacy_fallback tempTable noLegacy tempReq legacyRsp 0
  refine ⟨(h1.1 (by decide)).1, (h1.1 (by decide)).2.1,
    (h1.1 (by decide)).2.2.1 rfl, (h2.1 (by decide)).2.2.2 rfl, h3.2 (by decide)⟩

/-- C1: for every registered sensor resolved by the dispatcher whose read
succeeds and whose envelope fits the payload bound, the GET response is 2.05
and its body is the two-field ordered CBOR map whose field 0 is the device
type and whose field 1 is exactly the bytes returned by the sensor's read
callback (the body decodes back to exactly that pair). -/
theorem get_response_envelope (table : List SensorEntry)
    (legacy : CoapRequest → Option CoapResponse) (req : CoapRequest)
    (i : Nat) (e : SensorEntry) (p : List Nat)
    (hl : lookup_by_uri table req.uriLeaf = Except.ok i)
    (he : table[i]? = some e)
    (hr : e.readResult = Except.ok p)
    (ht : e.devicetype.length ≤ SAPI_MAX_DEVICE_TYPE_LEN)
    (hfit : (encodeEnvelope e.devicetype p).length ≤ SAPI_MAX_PAYLOAD_LEN) :
    (crsapi table legacy req).rsp = rsp205 (encodeEnvelope e.devicetype p)
    ∧ (crsapi table legacy req).rsp.codeClass = 2
    ∧ (crsapi table legacy req).rsp.codeDetail = 5
    ∧ decodeEnvelope ((crsapi table legacy req).rsp.payload) =
      some (e.devicetype, p) := by
  have henc : encode e.devicetype p SAPI_MAX_PAYLOAD_LEN =
      some (encodeEnvelope e.devicetype p) := by
    unfold encode
    rw [if_pos hfit]
  have hbuild : build e = Except.ok (encodeEnvelope e.devicetype p) := by
    simp [build, hr, henc]
  have hrsp : (crsapi table legacy req).rsp = rsp205 (encodeEnvelope e.devicetype p) := by
    simp [crsapi, hl, he, handleGet, hbuild]
  have ht24 : e.devicetype.length < 24 := by
    have h20 : SAPI_MAX_DEVICE_TYPE_LEN = 20 := rfl
    omega
  have hp : p.length < 65536 := by
    have hle := hfit
    rw [length_encodeEnvelope] at hle
    have h256 : SAPI_MAX_PAYLOAD_LEN = 256 := rfl
    omega
  refine ⟨hrsp, ?_, ?_, ?_⟩
  · rw [hrsp]
    rfl
  · rw [hrsp]
    rfl
  · rw [hrsp]
    exact decode_encodeEnvelope e.devicetype p ht24 hp

/-- C1 witness: the end-to-end scenario — the registered `temp` sensor whose
read returns the 4 bytes `23.5` answers a GET on `/temp` with code 2.05 and a
body that decodes to exactly the pair (`temp`, `23.5`). -/
theorem get_response_envelope_witness :
    (crsapi tempTable noLegacy tempReq).rsp =
      rsp205 (encodeEnvelope tempLabel tempPayload)
    ∧ (crsapi tempTable noLegacy tempReq).rsp.codeClass = 2
    ∧ (crsapi tempTable noLegacy tempReq).rsp.codeDetail = 5
    ∧ decodeEnvelope ((crsapi tempTable noLegacy tempReq).rsp.payload) =
      some (tempLabel, tempPayload) :=
  get_response_envelope tempTable noLegacy tempReq 0 tempEntry tempPayload
    (by decide) (by decide) (by decide) (by decide) (by decide)

/-- C7: the encoder fails exactly when the total encoded size — label length
plus payload length plus encoding overhead — exceeds `max_len`, and on failure
it returns no bytes at all (the `none` of the model carries no partial
envelope); in the dispatch path the builder calls it with
`max_len = SAPI_MAX_PAYLOAD_LEN = 256`, turning the failure into
`PayloadTooLarge`. -/
theorem encode_fails_when_too_large (t p : List Nat) (maxLen : Nat)
    (e : SensorEntry) (q : List Nat) :
    (encode t p maxLen = none ↔
      maxLen < t.length + p.length + envelopeOverhead t p)
    ∧ SAPI_MAX_PAYLOAD_LEN = 256
    ∧ (e.readResult = Except.ok q →
      encode e.devicetype q SAPI_MAX_PAYLOAD_LEN = none →
      build e = Except.error BuildError.payloadTooLarge) := by
  refine ⟨?_, rfl, ?_⟩
  · unfold encode
    rw [← length_encodeEnvelope]
    by_cases hle : (encodeEnvelope t p).length ≤ maxLen
    · rw [if_pos hle]
      constructor
      · intro hn
        exact Option.noConfusion hn
      · intro hlt
        omega
    · rw [if_neg hle]
      constructor
      · intro _
        omega
      · intro _
        rfl
  · intro h1 h2
    simp [build, h1, h2]

/-- C7 witness: a 251-byte reading of the `temp` sensor overflows the
256-byte bound (4 + 251 + 6 > 256): `encode` with `max_len = 10` fails
exactly by the size test, and the builder on that sensor fails with
`PayloadTooLarge`. -/
theorem encode_fails_when_too_large_witness :
    (encode tempLabel bigPayload 10 = none ↔
      10 < tempLabel.length + bigPayload.length + envelopeOverhead tempLabel bigPayload)
    ∧ SAPI_MAX_PAYLOAD_LEN = 256
    ∧ build bigEntry = Except.error BuildError.payloadTooLarge := by
  have h := encode_fails_when_too_large tempLabel bigPayload 10 bigEntry bigPayload
  refine ⟨h.1, h.2.1, h.2.2 rfl ?_⟩
  have hlen : (encodeEnvelope tempLabel bigPayload).length = 261 := by
    rw [length_encodeEnvelope]
    unfold envelopeOverhead cborHead tempLabel bigPayload
    rw [List.length_replicate]
    norm_num
  show encode bigEntry.devicetype bigPayload SAPI_MAX_PAYLOAD_LEN = none
  unfold encode
  rw [if_neg]
  show ¬ (encodeEnvelope bigEntry.devicetype bigPayload).length ≤ SAPI_MAX_PAYLOAD_LEN
  rw [show bigEntry.devicetype = tempLabel from rfl, hlen]
  decide

/-- C8: when a sensor's read callback fails, the Response Builder propagates
the driver error code unchanged (wrapped as the `SensorError` case) without
consulting the Envelope Encoder (the result is the same whatever device type
the encoder would have been given), the dispatcher leaves the registry table
unchanged, and a notification attempt on such a sensor leaves the whole
Observation Notifier state — entry, schedule, queue and sent list — exactly
as it was. -/
theorem read_error_propagated (e : SensorEntry) (c : Nat) (t2 : List Nat)
    (table : List SensorEntry) (legacy : CoapRequest → Option CoapResponse)
    (req : CoapRequest) (s : ObsState) (i : Nat) (os : ObsSensor)
    (hr : e.readResult = Except.error c) :
    build e = Except.error (BuildError.sensorError c)
    ∧ build { e with devicetype := t2 } = Except.error (BuildError.sensorError c)
    ∧ (crsapi table legacy req).table = table
    ∧ (s.sensors[i]? = some os → os.entry.readResult = Except.error c →
      notifySensor s i = s) := by
  refine ⟨by simp [build, hr], by simp [build, hr],
    crsapi_table_unchanged table legacy req, ?_⟩
  intro hos hre
  have hb : build os.entry = Except.error (BuildError.sensorError c) := by
    simp [build, hre]
  simp [notifySensor, hos, hb]

/-- C8 witness: the sensor whose read fails with driver code 7 — the builder
returns `sensorError 7` whatever the device type, the dispatcher leaves its
one-entry table unchanged, and a notification attempt leaves the notifier
state untouched. -/
theorem read_error_propagated_witness :
    build errEntry = Except.error (BuildError.sensorError 7)
    ∧ build { errEntry with devicetype := [9] } =
      Except.error (BuildError.sensorError 7)
    ∧ (crsapi [errEntry] noLegacy tempReq).table = [errEntry]
    ∧ notifySensor errObsState 0 = errObsState := by
  have h := read_error_propagated errEntry 7 [9] [errEntry] noLegacy tempReq
    errObsState 0 errObsSensor (by decide)
  exact ⟨h.1, h.2.1, h.2.2.1, h.2.2.2 (by decide) (by decide)⟩

/-- C6: envelope building is deterministic — two calls of `encode` on
identical inputs are identical, building twice from an unchanged sensor entry
yields byte-identical results, and the body a direct GET serves (through
`handleGet`) is byte-for-byte the body the Observation Notifier emits
(through `notifySensor`) for the same sensor in the same state. -/
theorem response_build_deterministic (t p : List Nat) (maxLen : Nat)
    (e : SensorEntry) (s : ObsState) (i : Nat) (os : ObsSensor) (body : List Nat)
    (hos : s.sensors[i]? = some os)
    (hobs : os.entry.observer = true)
    (hb : build os.entry = Except.ok body) :
    encode t p maxLen = encode t p maxLen
    ∧ build e = build e
    ∧ handleGet os.entry = rsp205 body
    ∧ (notifySensor s i).sent =
      Notification.mk i body (os.seqCounter + 1) COAP_MSG_MAX_AGE_IN_SECS :: s.sent := by
  refine ⟨rfl, rfl, ?_, ?_⟩
  · simp [handleGet, hb]
  · simp [notifySensor, hos, hobs, hb]

/-- C6 witness: for the observed `temp` sensor, the GET response body and the
notification body are the same envelope bytes. -/
theorem response_build_deterministic_witness :
    encode tempLabel tempPayload 256 = encode tempLabel tempPayload 256
    ∧ build tempEntry = build tempEntry
    ∧ handleGet obsEntry = rsp205 (encodeEnvelope tempLabel tempPayload)
    ∧ (notifySensor obsState0 0).sent =
      Notification.mk 0 (encodeEnvelope tempLabel tempPayload)
        (obsSensor0.seqCounter + 1) COAP_MSG_MAX_AGE_IN_SECS :: obsState0.sent :=
  response_build_deterministic tempLabel tempPayload 256 tempEntry obsState0 0
    obsSensor0 (encodeEnvelope tempLabel tempPayload)
    (by decide) (by decide) (by decide)

/-- C5: the Observe lifecycle — registering an Observe relationship sets
`is_observer` to true and returns a sequence value strictly greater than every
sequence value previously issued for that sensor; every notification carries
`Max-Age` fixed at `COAP_MSG_MAX_AGE_IN_SECS` (90 seconds); and after a
cancel clears `is_observer`, no sequence of further notification triggers —
including the triggers for notifications already queued at cancel time — ever
sends another notification for that sensor. -/
theorem observe_lifecycle (s : ObsState) (i : Nat) (os : ObsSensor) (evs : List Nat)
    (hos : s.sensors[i]? = some os)
    (hinv : os.issuedSeqs.all (fun x => decide (x ≤ os.seqCounter)) = true)
    (hma : sentMaxAgesOk s.sent = true) :
    (registerObserve s i).2 = some (os.seqCounter + 1)
    ∧ os.issuedSeqs.all (fun x => decide (x < os.seqCounter + 1)) = true
    ∧ obsFlag (registerObserve s i).1 i = some true
    ∧ sentMaxAgesOk (notifySensor s i).sent = true
    ∧ obsFlag (cancelObserve s i) i = some false
    ∧ notifsFor i (runTriggers (cancelObserve s i) evs).sent = notifsFor i s.sent := by
  have hlt : i < s.sensors.length := by
    by_contra hge
    rw [List.getElem?_eq_none (Nat.le_of_not_lt hge)] at hos
    exact Option.noConfusion hos
  have h2 : os.issuedSeqs.all (fun x => decide (x < os.seqCounter + 1)) = true := by
    simp only [List.all_eq_true, decide_eq_true_eq] at hinv ⊢
    intro x hx
    exact Nat.lt_succ_of_le (hinv x hx)
  have h3 : obsFlag (registerObserve s i).1 i = some true := by
    simp [registerObserve, hos, obsFlag, List.getElem?_set_eq_of_lt _ hlt]
  have h4 : sentMaxAgesOk (notifySensor s i).sent = true := by
    by_cases hobs : os.entry.observer
    · cases hb : build os.entry with
      | error err => simp [notifySensor, hos, hobs, hb, hma]
      | ok body =>
        have hma2 := hma
        simp only [sentMaxAgesOk, List.all_eq_true, decide_eq_true_eq] at hma2
        simp only [notifySensor, hos, hobs, hb, if_true, sentMaxAgesOk]
        rw [List.all_cons]
        simp only [List.all_eq_true, decide_eq_true_eq, Bool.and_eq_true]
        exact ⟨trivial, fun n hn => hma2 n hn⟩
    · simp [notifySensor, hos, hobs, hma]
  have h5 : obsFlag (cancelObserve s i) i = some false := by
    simp [cancelObserve, hos, obsFlag, List.getElem?_set_eq_of_lt _ hlt]
  have h6 : notifsFor i (runTriggers (cancelObserve s i) evs).sent =
      notifsFor i s.sent := by
    rw [notifsFor_runTriggers evs (cancelObserve s i) i h5]
    have hsent : (cancelObserve s i).sent = s.sent := by
      simp [cancelObserve, hos]
    rw [hsent]
  exact ⟨by simp [registerObserve, hos], h2, h3, h4, h5, h6⟩

/-- C5 witness: the observed `temp` sensor with sequence history `[3, 2, 1]`
and a queued notification — registering Observe returns 4 (greater than every
issued value), the emitted notification carries Max-Age 90, and after the
cancel the queued trigger and a further periodic trigger send nothing. -/
theorem observe_lifecycle_witness :
    (registerObserve obsState0 0).2 = some (obsSensor0.seqCounter + 1)
    ∧ obsSensor0.issuedSeqs.all (fun x => decide (x < obsSensor0.seqCounter + 1)) = true
    ∧ obsFlag (registerObserve obsState0 0).1 0 = some true
    ∧ sentMaxAgesOk (notifySensor obsState0 0).sent = true
    ∧ obsFlag (cancelObserve obsState0 0) 0 = some false
    ∧ notifsFor 0 (runTriggers (cancelObserve obsState0 0) [0, 0]).sent =
      notifsFor 0 obsState0.sent :=
  observe_lifecycle obsState0 0 obsSensor0 [0, 0] (by decide) (by decide) (by decide)

end Sapi
